import Mathlib

/-!
Shallow embedding of the VisionMate-Lite coordination core
(object-detection proximity predicate, OCR request pipeline,
audio gate, error handler, and the main-loop alert step),
with theorems checking the specification's claims against it.

Timestamps and pixel coordinates are modelled as rationals;
frames are opaque tokens (their pixel content is irrelevant to
every claim under verification).
-/

namespace VisionMate

/-- Timestamps (seconds since epoch), as produced by `time.time()`. -/
abbrev Time := ℚ

/-- An opaque camera frame token.  `frame.copy()` is the identity on
the token: the claims never inspect pixel data. -/
abbrev Frame := ℕ

/-- Python `str.strip()` whitespace predicate (space, tab, newline,
carriage return, vertical tab, form feed). -/
def pyIsSpace (c : Char) : Bool :=
  c = ' ' ∨ c = '\t' ∨ c = '\n' ∨ c = '\r' ∨
    c = Char.ofNat 11 ∨ c = Char.ofNat 12

/-- Python `str.strip()`: drop leading and trailing whitespace. -/
def pyStrip (s : String) : String :=
  ⟨((s.data.dropWhile pyIsSpace).reverse.dropWhile pyIsSpace).reverse⟩

/-! ## Detection (src/VisionMate_COMP5523_Submission/src/detection.py) -/

/-- Axis-aligned bounding box `(x1, y1, x2, y2)` in frame-relative pixels. -/
structure BBox where
  x1 : ℚ
  y1 : ℚ
  x2 : ℚ
  y2 : ℚ
deriving Repr, DecidableEq

/-- One object detection: class name, confidence and bounding box
(`Detection.__init__`). -/
structure Detection where
  class_name : String
  confidence : ℚ
  bbox : BBox
deriving Repr, DecidableEq

/-- `Detection.get_area`: `(x2 - x1) * (y2 - y1)`. -/
def Detection.get_area (d : Detection) : ℚ :=
  (d.bbox.x2 - d.bbox.x1) * (d.bbox.y2 - d.bbox.y1)

/-- `Detection.is_close`: true iff bbox area exceeds `threshold` times the
frame area (`get_area / (frame_width * frame_height) > threshold`). -/
def Detection.is_close (d : Detection) (frame_width frame_height : ℚ)
    (threshold : ℚ := 15/100) : Bool :=
  decide (d.get_area / (frame_width * frame_height) > threshold)

/-! ## OCR request pipeline (src/VisionMate_COMP5523_Submission/src/ocr_processor.py) -/

/-- `Queue(maxsize=5)` in `OCRProcessor.__init__`. -/
def maxQueueSize : ℕ := 5

/-- The mutable state of `OCRProcessor` relevant to submission and the
worker: the running flag, the processing flag, the timestamp of the last
accepted submission, the cooldown and the job queue. -/
structure OCRProcessorState where
  is_running : Bool
  is_processing : Bool
  last_processing_time : Time
  processing_cooldown : Time
  queue : List Frame
deriving Repr, DecidableEq

/-- `OCRProcessor.process_frame`: rejects when not running, when the
cooldown has not elapsed since the last accepted submission, or when a
job is currently processing; otherwise enqueues a copy of the frame
(`put_nowait`; a full queue raises, the exception is caught and the call
returns false with the timestamp untouched) and stamps
`last_processing_time`.  Returns the boolean result and the new state. -/
def OCRProcessorState.process_frame (s : OCRProcessorState) (now : Time)
    (frame : Frame) : Bool × OCRProcessorState :=
  if s.is_running = false then
    (false, s)
  else if now - s.last_processing_time < s.processing_cooldown then
    (false, s)
  else if s.is_processing then
    (false, s)
  else if s.queue.length < maxQueueSize then
    (true, { s with queue := s.queue ++ [frame], last_processing_time := now })
  else
    (false, s)

/-- Result of `OCREngine.extract_text` as seen by the worker: either a
`(text_option, status_message)` pair or a raised exception. -/
inductive ExtractOutcome where
  | ok (text : Option String) (status : String)
  | raises
deriving Repr, DecidableEq

/-- Python truthiness of the `extracted_text` value (`if extracted_text:`):
true iff present and non-empty. -/
def textTruthy : Option String → Bool
  | some t => t ≠ ""
  | none => false

/-- Environment of one `_process_single_frame` run: whether the optional
`on_processing_start` callback raises, the audio-busy flag at each
`is_busy()` poll, the extraction outcome, and whether the optional
`on_processing_complete` callback raises. -/
structure SingleFrameEnv where
  on_start_raises : Bool
  busy_at_announce : Bool
  extract : ExtractOutcome
  busy_at_speak : Bool
  busy_after_wait : Bool
  busy_at_error : Bool
  on_complete_raises : Bool
deriving Repr, DecidableEq

/-- The `try:` body of `OCRProcessor._process_single_frame` (everything
after `is_processing = True`): returns the list of texts passed to
`audio_manager.speak_text` and whether the body raised (in which case the
`except` handler runs). -/
def processBody (env : SingleFrameEnv) : List String × Bool :=
  if env.on_start_raises then
    ([], true)
  else
    let announced := if env.busy_at_announce then [] else ["Processing text"]
    match env.extract with
    | .raises => (announced, true)
    | .ok text status =>
      let spoken :=
        if textTruthy text then
          if env.busy_at_speak = false then [text.getD ""]
          else if env.busy_after_wait = false then [text.getD ""]
          else []
        else
          if env.busy_at_speak then [] else [status]
      if env.on_complete_raises then (announced ++ spoken, true)
      else (announced ++ spoken, false)

/-- `OCRProcessor._process_single_frame`: sets `is_processing`, runs the
body, on a raised exception speaks the fixed failure message (audio
permitting), and in the `finally:` block clears `is_processing`.
Returns the final state and the spoken texts. -/
def processSingleFrame (s : OCRProcessorState) (env : SingleFrameEnv) :
    OCRProcessorState × List String :=
  let started := { s with is_processing := true }
  let body := processBody env
  let spoken :=
    if body.2 then
      body.1 ++ (if env.busy_at_error then [] else ["OCR processing failed"])
    else body.1
  ({ started with is_processing := false }, spoken)

end VisionMate

namespace VisionMate

/-! ## Claim theorems (first group) -/

/-- Claim C1: a `process_frame` call made while a job is currently
processing, or before the cooldown has elapsed since the last accepted
submission, returns false and has no side effects: the queue, the
last-accepted timestamp and the processing flag are all unchanged. -/
theorem process_frame_reject_is_noop (s : OCRProcessorState) (now : Time)
    (frame : Frame)
    (h : s.is_processing = true ∨ now - s.last_processing_time < s.processing_cooldown) :
    (s.process_frame now frame).1 = false ∧ (s.process_frame now frame).2 = s := by
  unfold OCRProcessorState.process_frame
  rcases h with h | h
  · split_ifs <;> simp_all
  · split_ifs <;> simp_all

/-- Witness for C1: a concrete rejected call (cooldown 2 s, last accepted
at t = 9, resubmission at t = 10 while processing) returns false and
leaves the state untouched. -/
theorem process_frame_reject_is_noop_witness :
    (({ is_running := true, is_processing := true, last_processing_time := 9,
        processing_cooldown := 2, queue := [] } : OCRProcessorState).is_processing = true ∨
      (10 : Time) - (9 : Time) < (2 : Time)) ∧
    ((({ is_running := true, is_processing := true, last_processing_time := 9,
         processing_cooldown := 2, queue := [] } : OCRProcessorState).process_frame 10 7).1
        = false ∧
     (({ is_running := true, is_processing := true, last_processing_time := 9,
         processing_cooldown := 2, queue := [] } : OCRProcessorState).process_frame 10 7).2
        = { is_running := true, is_processing := true, last_processing_time := 9,
            processing_cooldown := 2, queue := [] }) :=
  ⟨Or.inl rfl,
   process_frame_reject_is_noop
     { is_running := true, is_processing := true, last_processing_time := 9,
       processing_cooldown := 2, queue := [] } 10 7 (Or.inl rfl)⟩

/-- Claim C2: whatever the outcome of a single-frame OCR worker step
(valid text, empty result, an exception from extraction, from a callback,
or any pattern of audio-busy polls), the processing flag is false when the
step finishes: no outcome leaves the pipeline wedged in PROCESSING. -/
theorem process_single_frame_clears_processing (s : OCRProcessorState)
    (env : SingleFrameEnv) :
    (processSingleFrame s env).1.is_processing = false := by
  simp [processSingleFrame]

/-- Claim C9: for a fixed positive frame width and height (and any
threshold), `is_close` is monotonic in bounding-box area: if a detection
with some area is close, every detection of area at least as large over
the same frame is also close. -/
theorem is_close_monotone_in_area (d d' : Detection)
    (w h threshold : ℚ) (hw : 0 < w) (hh : 0 < h)
    (hclose : d.is_close w h threshold = true)
    (harea : d.get_area ≤ d'.get_area) :
    d'.is_close w h threshold = true := by
  simp only [Detection.is_close, decide_eq_true_eq] at hclose ⊢
  have hwh : 0 < w * h := mul_pos hw hh
  exact lt_of_lt_of_le hclose (div_le_div_of_nonneg_right harea hwh.le)

/-- Witness for C9: a 100×100 box covering 20 % of a 640×480 frame is
close; growing it to 200×200 keeps it close. -/
theorem is_close_monotone_in_area_witness :
    (0 : ℚ) < 640 ∧ (0 : ℚ) < 480 ∧
    Detection.is_close ⟨"person", 9/10, ⟨0, 0, 256, 240⟩⟩ 640 480 (15/100) = true ∧
    Detection.get_area ⟨"person", 9/10, ⟨0, 0, 256, 240⟩⟩ ≤
      Detection.get_area ⟨"person", 9/10, ⟨0, 0, 320, 240⟩⟩ ∧
    Detection.is_close ⟨"person", 9/10, ⟨0, 0, 320, 240⟩⟩ 640 480 (15/100) = true :=
  ⟨by norm_num, by norm_num,
   by simp only [Detection.is_close, Detection.get_area, decide_eq_true_eq]; norm_num,
   by simp only [Detection.get_area]; norm_num,
   is_close_monotone_in_area ⟨"person", 9/10, ⟨0, 0, 256, 240⟩⟩
     ⟨"person", 9/10, ⟨0, 0, 320, 240⟩⟩ 640 480 (15/100)
     (by norm_num) (by norm_num)
     (by simp only [Detection.is_close, Detection.get_area, decide_eq_true_eq]; norm_num)
     (by simp only [Detection.get_area]; norm_num)⟩

end VisionMate

namespace VisionMate.BaseAudio

/-!
## Audio gate, base version (src/src/audio.py)

State: whether `pyttsx3.init()` succeeded (`engine` non-null) and the
lock-guarded `_is_speaking` flag.  Effects are reported as the list of
texts passed to `engine.say` and the list of lines printed to stdout.
`sayRaises` stands for whether the black-box `engine.say`/`runAndWait`
pair raises on this call.
-/

/-- Observable state of `AudioManager` (base version). -/
structure AudioState where
  engine_available : Bool
  is_speaking : Bool
deriving Repr, DecidableEq

/-- Result of one `speak_*` call: its boolean return value, the texts
passed to the TTS engine, and the lines printed. -/
structure SpeakResult where
  ret : Bool
  engine_calls : List String
  printed : List String
deriving Repr, DecidableEq

/-- `AudioManager.ALERT_MESSAGES` lookup with the `f"{class} detected"`
default (`ALERT_MESSAGES.get(object_class, ...)`). -/
def alertMessage (object_class : String) : String :=
  match object_class with
  | "person" => "Person ahead"
  | "chair" => "Chair detected"
  | "car" => "Car nearby"
  | "door" => "Door detected"
  | c => c ++ " detected"

/-- `AudioManager.speak_alert` (base version): no engine → print a
notice and return false; busy → return false untouched; otherwise say
the alert message (an engine exception is caught, printed, and yields
false). -/
def speak_alert (s : AudioState) (object_class : String) (sayRaises : Bool) :
    SpeakResult :=
  if s.engine_available = false then
    { ret := false, engine_calls := [],
      printed := ["TTS engine not available. Alert: " ++ object_class] }
  else if s.is_speaking then
    { ret := false, engine_calls := [], printed := [] }
  else
    let message := alertMessage object_class
    if sayRaises then
      { ret := false, engine_calls := [message],
        printed := ["Error speaking alert"] }
    else
      { ret := true, engine_calls := [message], printed := [] }

/-- `AudioManager.speak_text` (base version): no engine → print a notice
and return false; busy → return false; otherwise strip the text,
substitute "No text found" when the cleaned text is empty, and say it
(an engine exception is caught, printed, and yields false). -/
def speak_text (s : AudioState) (text : String) (sayRaises : Bool) :
    SpeakResult :=
  if s.engine_available = false then
    { ret := false, engine_calls := [],
      printed := ["TTS engine not available. Text: " ++ text] }
  else if s.is_speaking then
    { ret := false, engine_calls := [], printed := [] }
  else
    let cleaned := pyStrip text
    let cleaned_text := if cleaned = "" then "No text found" else cleaned
    if sayRaises then
      { ret := false, engine_calls := [cleaned_text],
        printed := ["Error speaking text"] }
    else
      { ret := true, engine_calls := [cleaned_text], printed := [] }

end VisionMate.BaseAudio

namespace VisionMate

/-- Claim C4: while the busy flag is set and the engine is available,
every `speak_alert` and `speak_text` call returns false immediately with
no call into the TTS engine and nothing queued or printed. -/
theorem speak_while_busy_returns_false (s : BaseAudio.AudioState)
    (object_class text : String) (r₁ r₂ : Bool)
    (heng : s.engine_available = true) (hbusy : s.is_speaking = true) :
    (BaseAudio.speak_alert s object_class r₁).ret = false ∧
    (BaseAudio.speak_alert s object_class r₁).engine_calls = [] ∧
    (BaseAudio.speak_alert s object_class r₁).printed = [] ∧
    (BaseAudio.speak_text s text r₂).ret = false ∧
    (BaseAudio.speak_text s text r₂).engine_calls = [] ∧
    (BaseAudio.speak_text s text r₂).printed = [] := by
  simp [BaseAudio.speak_alert, BaseAudio.speak_text, heng, hbusy]

/-- Witness for C4: the concrete busy state with an available engine
rejects both calls without any engine interaction. -/
theorem speak_while_busy_returns_false_witness :
    ({ engine_available := true, is_speaking := true } :
        BaseAudio.AudioState).engine_available = true ∧
    ({ engine_available := true, is_speaking := true } :
        BaseAudio.AudioState).is_speaking = true ∧
    ((BaseAudio.speak_alert { engine_available := true, is_speaking := true }
        "person" false).ret = false ∧
     (BaseAudio.speak_alert { engine_available := true, is_speaking := true }
        "person" false).engine_calls = [] ∧
     (BaseAudio.speak_alert { engine_available := true, is_speaking := true }
        "person" false).printed = [] ∧
     (BaseAudio.speak_text { engine_available := true, is_speaking := true }
        "ROOM 101" false).ret = false ∧
     (BaseAudio.speak_text { engine_available := true, is_speaking := true }
        "ROOM 101" false).engine_calls = [] ∧
     (BaseAudio.speak_text { engine_available := true, is_speaking := true }
        "ROOM 101" false).printed = []) :=
  ⟨rfl, rfl,
   speak_while_busy_returns_false { engine_available := true, is_speaking := true }
     "person" "ROOM 101" false false rfl rfl⟩

/-- Claim C10: an empty or whitespace-only string passed to the base
`speak_text` while the engine is available and not busy is not rejected:
the fixed message "No text found" is what reaches the engine and the call
returns true (provided the engine call itself does not raise). -/
theorem speak_text_empty_normalized (s : BaseAudio.AudioState) (text : String)
    (heng : s.engine_available = true) (hbusy : s.is_speaking = false)
    (hempty : pyStrip text = "") :
    (BaseAudio.speak_text s text false).ret = true ∧
    (BaseAudio.speak_text s text false).engine_calls = ["No text found"] := by
  simp [BaseAudio.speak_text, heng, hbusy, hempty]

/-- Witness for C10: the whitespace-only string "   " is normalized to
"No text found" and spoken successfully. -/
theorem speak_text_empty_normalized_witness :
    ({ engine_available := true, is_speaking := false } :
        BaseAudio.AudioState).engine_available = true ∧
    ({ engine_available := true, is_speaking := false } :
        BaseAudio.AudioState).is_speaking = false ∧
    pyStrip "   " = "" ∧
    ((BaseAudio.speak_text { engine_available := true, is_speaking := false }
        "   " false).ret = true ∧
     (BaseAudio.speak_text { engine_available := true, is_speaking := false }
        "   " false).engine_calls = ["No text found"]) :=
  ⟨rfl, rfl, by decide,
   speak_text_empty_normalized { engine_available := true, is_speaking := false }
     "   " rfl rfl (by decide)⟩

end VisionMate

namespace VisionMate.SubmissionAudio

/-!
## Audio gate, submission version (src/VisionMate_COMP5523_Submission/src/audio.py)

This variant adds a `_use_fallback` flag and routes engine exceptions
through the global error handler.  `handled` stands for the boolean the
error handler returned for the `tts_error` it was given.
-/

/-- Observable state of the submission `AudioManager`. -/
structure AudioState where
  engine_available : Bool
  use_fallback : Bool
  is_speaking : Bool
deriving Repr, DecidableEq

/-- `AudioManager.speak_alert` (submission version): with no engine or in
fallback mode, print the alert and report success; busy → false;
otherwise say the message; on an engine exception consult the error
handler and, when it reports handled, print the fallback line and report
success. -/
def speak_alert (s : AudioState) (object_class : String)
    (sayRaises handled : Bool) : BaseAudio.SpeakResult :=
  let message := BaseAudio.alertMessage object_class
  if s.engine_available = false ∨ s.use_fallback then
    { ret := true, engine_calls := [],
      printed := ["AUDIO ALERT: " ++ message] }
  else if s.is_speaking then
    { ret := false, engine_calls := [], printed := [] }
  else if sayRaises then
    if handled then
      { ret := true, engine_calls := [message],
        printed := ["AUDIO ALERT: " ++ message] }
    else
      { ret := false, engine_calls := [message], printed := [] }
  else
    { ret := true, engine_calls := [message], printed := [] }

/-- `AudioManager.speak_text` (submission version): strip the text and
substitute "No text found" when empty; with no engine or in fallback
mode, print the text and report success; busy → false; otherwise say it,
falling back through the error handler on an engine exception. -/
def speak_text (s : AudioState) (text : String)
    (sayRaises handled : Bool) : BaseAudio.SpeakResult :=
  let cleaned := pyStrip text
  let cleaned_text := if cleaned = "" then "No text found" else cleaned
  if s.engine_available = false ∨ s.use_fallback then
    { ret := true, engine_calls := [],
      printed := ["AUDIO TEXT: " ++ cleaned_text] }
  else if s.is_speaking then
    { ret := false, engine_calls := [], printed := [] }
  else if sayRaises then
    if handled then
      { ret := true, engine_calls := [cleaned_text],
        printed := ["AUDIO TEXT: " ++ cleaned_text] }
    else
      { ret := false, engine_calls := [cleaned_text], printed := [] }
  else
    { ret := true, engine_calls := [cleaned_text], printed := [] }

end VisionMate.SubmissionAudio

namespace VisionMate

/-- Counterexample to claim C7: in the base `AudioManager`
(src/src/audio.py), a `speak_text` call with the TTS engine unavailable
prints the text but returns FALSE, not true as the claim states; the
same holds for `speak_alert`. -/
theorem speak_unavailable_returns_false_cex :
    (BaseAudio.speak_text { engine_available := false, is_speaking := false }
        "hello" false).ret = false ∧
    (BaseAudio.speak_text { engine_available := false, is_speaking := false }
        "hello" false).printed = ["TTS engine not available. Text: hello"] ∧
    (BaseAudio.speak_alert { engine_available := false, is_speaking := false }
        "person" false).ret = false ∧
    (BaseAudio.speak_alert { engine_available := false, is_speaking := false }
        "person" false).printed = ["TTS engine not available. Alert: person"] := by
  refine ⟨rfl, rfl, rfl, rfl⟩

/-- Claim C7 (amended): when the TTS engine is unavailable, every
`speak_alert`/`speak_text` call falls back to printing the message with
no engine call; the submission `AudioManager` then reports success
(returns true), while the base `AudioManager` at src/src/audio.py reports
failure (returns false). -/
theorem speak_unavailable_fallback (sb : BaseAudio.AudioState)
    (ss : SubmissionAudio.AudioState) (object_class text : String)
    (r₁ r₂ h₁ h₂ : Bool)
    (hb : sb.engine_available = false) (hs : ss.engine_available = false) :
    ((BaseAudio.speak_alert sb object_class r₁).ret = false ∧
     (BaseAudio.speak_alert sb object_class r₁).printed
        = ["TTS engine not available. Alert: " ++ object_class] ∧
     (BaseAudio.speak_alert sb object_class r₁).engine_calls = []) ∧
    ((BaseAudio.speak_text sb text r₂).ret = false ∧
     (BaseAudio.speak_text sb text r₂).printed
        = ["TTS engine not available. Text: " ++ text] ∧
     (BaseAudio.speak_text sb text r₂).engine_calls = []) ∧
    ((SubmissionAudio.speak_alert ss object_class r₁ h₁).ret = true ∧
     (SubmissionAudio.speak_alert ss object_class r₁ h₁).printed
        = ["AUDIO ALERT: " ++ BaseAudio.alertMessage object_class] ∧
     (SubmissionAudio.speak_alert ss object_class r₁ h₁).engine_calls = []) ∧
    ((SubmissionAudio.speak_text ss text r₂ h₂).ret = true ∧
     (SubmissionAudio.speak_text ss text r₂ h₂).engine_calls = []) := by
  simp [BaseAudio.speak_alert, BaseAudio.speak_text,
    SubmissionAudio.speak_alert, SubmissionAudio.speak_text, hb, hs]

/-- Witness for amended C7: with the engine unavailable, the base manager
prints and returns false for "hello", the submission manager prints and
returns true. -/
theorem speak_unavailable_fallback_witness :
    ({ engine_available := false, is_speaking := false } :
        BaseAudio.AudioState).engine_available = false ∧
    ({ engine_available := false, use_fallback := false, is_speaking := false } :
        SubmissionAudio.AudioState).engine_available = false ∧
    (((BaseAudio.speak_alert { engine_available := false, is_speaking := false }
        "person" false).ret = false ∧
      (BaseAudio.speak_alert { engine_available := false, is_speaking := false }
        "person" false).printed = ["TTS engine not available. Alert: " ++ "person"] ∧
      (BaseAudio.speak_alert { engine_available := false, is_speaking := false }
        "person" false).engine_calls = []) ∧
     ((BaseAudio.speak_text { engine_available := false, is_speaking := false }
        "hello" false).ret = false ∧
      (BaseAudio.speak_text { engine_available := false, is_speaking := false }
        "hello" false).printed = ["TTS engine not available. Text: " ++ "hello"] ∧
      (BaseAudio.speak_text { engine_available := false, is_speaking := false }
        "hello" false).engine_calls = []) ∧
     ((SubmissionAudio.speak_alert
        { engine_available := false, use_fallback := false, is_speaking := false }
        "person" false false).ret = true ∧
      (SubmissionAudio.speak_alert
        { engine_available := false, use_fallback := false, is_speaking := false }
        "person" false false).printed
          = ["AUDIO ALERT: " ++ BaseAudio.alertMessage "person"] ∧
      (SubmissionAudio.speak_alert
        { engine_available := false, use_fallback := false, is_speaking := false }
        "person" false false).engine_calls = []) ∧
     ((SubmissionAudio.speak_text
        { engine_available := false, use_fallback := false, is_speaking := false }
        "hello" false false).ret = true ∧
      (SubmissionAudio.speak_text
        { engine_available := false, use_fallback := false, is_speaking := false }
        "hello" false false).engine_calls = [])) :=
  ⟨rfl, rfl,
   speak_unavailable_fallback
     { engine_available := false, is_speaking := false }
     { engine_available := false, use_fallback := false, is_speaking := false }
     "person" "hello" false false false false rfl rfl⟩

end VisionMate

namespace VisionMate.OCR

/-!
## OCR engine text validation (src/src/ocr.py, `OCREngine.validate_text`)

Character classification models Python's `str.isprintable` and
`str.isalnum` on the ASCII fragment (every string in the claims is
ASCII).  Ratios are exact rationals.
-/

/-- Python `str.isprintable` for one ASCII character: printable iff not a
control character and not DEL (space itself is printable). -/
def pyIsPrintable (c : Char) : Bool :=
  32 ≤ c.toNat ∧ c.toNat ≤ 126

/-- The cleaned text of `validate_text`:
`text.strip().replace('\n', ' ').replace('\r', '')`, as a character
list. -/
def cleaned_chars (text : String) : List Char :=
  (((pyStrip text).data.map fun c => if c = '\n' then ' ' else c).filter
    fun c => ¬ c = '\r')

/-- `OCREngine.validate_text`: reject falsy (empty) input, cleaned text
shorter than `min_text_length`, printable-character ratio below 0.7 and
alphanumeric ratio below 0.3; accept otherwise.  The `len > 0` guards of
the ratio checks are kept as in the source. -/
def validate_text (min_text_length : ℕ) (text : String) : Bool :=
  if text = "" then
    false
  else if (cleaned_chars text).length < min_text_length then
    false
  else if 0 < (cleaned_chars text).length ∧
      (((cleaned_chars text).filter pyIsPrintable).length : ℚ) /
        ((cleaned_chars text).length : ℚ) < 7/10 then
    false
  else if 0 < (cleaned_chars text).length ∧
      (((cleaned_chars text).filter Char.isAlphanum).length : ℚ) /
        ((cleaned_chars text).length : ℚ) < 3/10 then
    false
  else
    true

end VisionMate.OCR

namespace VisionMate

/-- Claim C8: with a positive configured minimum length, `validate_text`
rejects empty or whitespace-only text, text whose cleaned length is below
the minimum, text whose printable ratio is below 0.7 and text whose
alphanumeric ratio is below 0.3, and accepts text passing all of these;
in particular "###@@@***" is rejected and "ROOM 101" is accepted (at the
configured minimum 3). -/
theorem validate_text_policy (min_text_length : ℕ) (text : String)
    (hmin : 1 ≤ min_text_length) :
    (pyStrip text = "" → OCR.validate_text min_text_length text = false) ∧
    ((OCR.cleaned_chars text).length < min_text_length →
      OCR.validate_text min_text_length text = false) ∧
    ((((OCR.cleaned_chars text).filter OCR.pyIsPrintable).length : ℚ) /
        ((OCR.cleaned_chars text).length : ℚ) < 7/10 →
      OCR.validate_text min_text_length text = false) ∧
    ((((OCR.cleaned_chars text).filter Char.isAlphanum).length : ℚ) /
        ((OCR.cleaned_chars text).length : ℚ) < 3/10 →
      OCR.validate_text min_text_length text = false) ∧
    (text ≠ "" →
      min_text_length ≤ (OCR.cleaned_chars text).length →
      ¬ ((((OCR.cleaned_chars text).filter OCR.pyIsPrintable).length : ℚ) /
          ((OCR.cleaned_chars text).length : ℚ) < 7/10) →
      ¬ ((((OCR.cleaned_chars text).filter Char.isAlphanum).length : ℚ) /
          ((OCR.cleaned_chars text).length : ℚ) < 3/10) →
      OCR.validate_text min_text_length text = true) ∧
    OCR.validate_text 3 "###@@@***" = false ∧
    OCR.validate_text 3 "ROOM 101" = true := by
  have hws : pyStrip text = "" → OCR.cleaned_chars text = [] := by
    intro h
    simp [OCR.cleaned_chars, h]
  refine ⟨?_, ?_, ?_, ?_, ?_, ?_, ?_⟩
  · intro h
    rcases Decidable.em (text = "") with he | he
    · simp [OCR.validate_text, he]
    · have hlen : (OCR.cleaned_chars text).length = 0 := by
        simp [hws h]
      simp only [OCR.validate_text, hlen]
      rw [if_neg he, if_pos (by omega)]
  · intro h
    simp only [OCR.validate_text]
    split_ifs <;> simp_all
  · intro h
    simp only [OCR.validate_text]
    split_ifs with h1 h2 h3 h4 <;> try rfl
    exfalso
    have hpos : 0 < (OCR.cleaned_chars text).length := by omega
    exact h3 ⟨hpos, h⟩
  · intro h
    simp only [OCR.validate_text]
    split_ifs with h1 h2 h3 h4 <;> try rfl
    exfalso
    have hpos : 0 < (OCR.cleaned_chars text).length := by omega
    exact h4 ⟨hpos, h⟩
  · intro hne hlen hp ha
    simp only [OCR.validate_text]
    rw [if_neg hne, if_neg (by omega), if_neg ?_, if_neg ?_]
    · exact fun hc => ha hc.2
    · exact fun hc => hp hc.2
  · have hlen : (OCR.cleaned_chars "###@@@***").length = 9 := by decide
    have ha : ((OCR.cleaned_chars "###@@@***").filter Char.isAlphanum).length = 0 := by
      decide
    simp only [OCR.validate_text]
    split_ifs with h1 h2 h3 h4 <;> try rfl
    exfalso
    apply h4
    rw [hlen, ha]
    norm_num
  · have hne : ("ROOM 101" : String) ≠ "" := by decide
    have hlen : (OCR.cleaned_chars "ROOM 101").length = 8 := by decide
    have hp : ((OCR.cleaned_chars "ROOM 101").filter OCR.pyIsPrintable).length = 8 := by
      decide
    have ha : ((OCR.cleaned_chars "ROOM 101").filter Char.isAlphanum).length = 7 := by
      decide
    simp only [OCR.validate_text]
    rw [if_neg hne, if_neg (by omega), if_neg ?_, if_neg ?_]
    · rw [hlen, ha]
      rintro ⟨-, hc⟩
      norm_num at hc
    · rw [hlen, hp]
      rintro ⟨-, hc⟩
      norm_num at hc

/-- Witness for C8: at the configured minimum length 3, the whitespace
string "  " is rejected and the two example strings behave as claimed. -/
theorem validate_text_policy_witness :
    (1 : ℕ) ≤ 3 ∧ pyStrip "  " = "" ∧
    OCR.validate_text 3 "  " = false ∧
    OCR.validate_text 3 "###@@@***" = false ∧
    OCR.validate_text 3 "ROOM 101" = true :=
  ⟨by decide, by decide,
   (validate_text_policy 3 "  " (by decide)).1 (by decide),
   (validate_text_policy 3 "  " (by decide)).2.2.2.2.2.1,
   (validate_text_policy 3 "  " (by decide)).2.2.2.2.2.2⟩

end VisionMate

namespace VisionMate.ErrorH

/-!
## Error handler (src/src/error_handler.py, `ErrorHandler`)

`error_counts` models the Python dict with `.get(k, 0)` semantics as a
total function (an absent key and a zero entry are indistinguishable to
every read in the source).  The outcome of the recovery strategy run —
a black-box call that may itself raise — is passed in as an `Except`.
-/

/-- The keys registered in `_register_default_strategies`. -/
def registered_strategies : List String :=
  ["camera_error", "model_error", "tts_error", "ocr_error", "general_error"]

/-- `self.recovery_strategies.get(error_type, ... ["general_error"])`:
the key of the strategy that would be dispatched for `error_type`. -/
def strategy_key (error_type : String) : String :=
  if error_type ∈ registered_strategies then error_type else "general_error"

/-- Mutable state of `ErrorHandler`: per-category counts and the retry
ceiling (`max_retries = 3` in `__init__`). -/
structure ErrorHandlerState where
  error_counts : String → ℕ
  max_retries : ℕ

/-- Result of one `handle_error` call: the boolean return value, the key
of the recovery strategy that was invoked (none when skipped), and the
new handler state. -/
structure HandleResult where
  ret : Bool
  invoked_strategy : Option String
  state : ErrorHandlerState

/-- `ErrorHandler.handle_error`: increment the category's count; if the
new count exceeds `max_retries`, return false without attempting
recovery; otherwise dispatch the category's strategy (an exception
raised by the strategy is caught and yields false). -/
def handle_error (s : ErrorHandlerState) (error_type : String)
    (recovery : Except Unit Bool) : HandleResult :=
  let new_count := s.error_counts error_type + 1
  let counts := fun k => if k = error_type then new_count else s.error_counts k
  let s' : ErrorHandlerState := { s with error_counts := counts }
  if new_count > s.max_retries then
    { ret := false, invoked_strategy := none, state := s' }
  else
    match recovery with
    | .ok b => { ret := b, invoked_strategy := some (strategy_key error_type), state := s' }
    | .error _ =>
      { ret := false, invoked_strategy := some (strategy_key error_type), state := s' }

/-- `ErrorHandler.reset_error_count`: delete the category's entry
(reads then see the default 0). -/
def reset_error_count (s : ErrorHandlerState) (error_type : String) :
    ErrorHandlerState :=
  { s with error_counts := fun k => if k = error_type then 0 else s.error_counts k }

end VisionMate.ErrorH

namespace VisionMate.MainLoop

/-!
## Main coordination loop (src/main.py, `run_main_loop`)

Only the two loop fragments the claims are about are embedded: the
frame-capture failure/success handling (lines 189–204) and the
per-detection proximity-alert step (lines 230–238).
-/

/-- `config.ALERT_COOLDOWN_SECONDS` (5). -/
def ALERT_COOLDOWN_SECONDS : Time := 5

/-- `max_consecutive_failures` in `run_main_loop` (10). -/
def max_consecutive_failures : ℕ := 10

/-- The loop-local state the embedded fragments touch: the consecutive
frame-failure counter, the per-class `last_alert_time` dict (`.get`
default 0) and the global error handler. -/
structure LoopState where
  consecutive_frame_failures : ℕ
  last_alert_time : String → Time
  handler : ErrorH.ErrorHandlerState

/-- Whether the iteration continues or the loop breaks. -/
inductive LoopSignal where
  | next
  | exitLoop
deriving Repr, DecidableEq

/-- The frame-capture handling at the top of each `run_main_loop`
iteration: a null frame increments `consecutive_frame_failures` and at
the threshold attempts one camera re-initialization (on failure the loop
breaks, on success the counter resets); a captured frame resets the
counter.  Nothing here touches the error handler's counts. -/
def frameCaptureStep (ls : LoopState) (frame : Option Frame)
    (reinitOk : Bool) : LoopState × LoopSignal :=
  match frame with
  | none =>
    let n := ls.consecutive_frame_failures + 1
    if max_consecutive_failures ≤ n then
      if reinitOk then
        ({ ls with consecutive_frame_failures := 0 }, .next)
      else
        ({ ls with consecutive_frame_failures := n }, .exitLoop)
    else
      ({ ls with consecutive_frame_failures := n }, .next)
  | some _ =>
    ({ ls with consecutive_frame_failures := 0 }, .next)

/-- Audio/OCR busy flags and the return value of the `speak_alert` call
at this tick.  `run_main_loop` ignores `speak_result`: the timestamp is
stamped right after the call, whatever it returned. -/
structure AlertEnv where
  audio_busy : Bool
  ocr_busy : Bool
  speak_result : Bool
deriving Repr, DecidableEq

/-- The per-detection proximity-alert body of `run_main_loop`: when the
detection is close, its class's cooldown has strictly elapsed, and
neither the audio gate nor the OCR pipeline is busy, call `speak_alert`
and stamp `last_alert_time[class] = now` (the call's return value is not
consulted).  Returns the updated table and whether `speak_alert` was
called. -/
def alertStep (last_alert_time : String → Time) (d : Detection)
    (frame_width frame_height : ℚ) (now : Time) (env : AlertEnv) :
    (String → Time) × Bool :=
  if d.is_close frame_width frame_height then
    if now - last_alert_time d.class_name > ALERT_COOLDOWN_SECONDS then
      if env.audio_busy = false ∧ env.ocr_busy = false then
        (fun c => if c = d.class_name then now else last_alert_time c, true)
      else
        (last_alert_time, false)
    else
      (last_alert_time, false)
  else
    (last_alert_time, false)

end VisionMate.MainLoop

namespace VisionMate

/-- Claim C5: `handle_error` increments the category's count on each
call; once the new count exceeds `max_retries` (3) it returns false with
no recovery strategy invoked, and below that ceiling it dispatches the
category's recovery strategy. -/
theorem handle_error_retry_ceiling (s : ErrorH.ErrorHandlerState)
    (error_type : String) (recovery : Except Unit Bool)
    (hmax : s.max_retries = 3) :
    (ErrorH.handle_error s error_type recovery).state.error_counts error_type
        = s.error_counts error_type + 1 ∧
    (3 < s.error_counts error_type + 1 →
      (ErrorH.handle_error s error_type recovery).ret = false ∧
      (ErrorH.handle_error s error_type recovery).invoked_strategy = none) ∧
    (s.error_counts error_type + 1 ≤ 3 →
      (ErrorH.handle_error s error_type recovery).invoked_strategy
        = some (ErrorH.strategy_key error_type)) := by
  cases recovery with
  | ok b =>
    simp only [ErrorH.handle_error, hmax]
    split_ifs with h
    · exact ⟨by simp, fun _ => ⟨rfl, rfl⟩, fun hle => by omega⟩
    · exact ⟨by simp, fun hgt => by omega, fun _ => rfl⟩
  | error e =>
    simp only [ErrorH.handle_error, hmax]
    split_ifs with h
    · exact ⟨by simp, fun _ => ⟨rfl, rfl⟩, fun hle => by omega⟩
    · exact ⟨by simp, fun hgt => by omega, fun _ => rfl⟩

/-- Witness for C5: a handler whose "ocr_error" count is already 3 takes
its fourth consecutive failure; the count becomes 4, the call returns
false and no strategy runs. -/
theorem handle_error_retry_ceiling_witness :
    ({ error_counts := fun _ => 3, max_retries := 3 } :
        ErrorH.ErrorHandlerState).max_retries = 3 ∧
    ((ErrorH.handle_error { error_counts := fun _ => 3, max_retries := 3 }
        "ocr_error" (Except.ok true)).state.error_counts "ocr_error"
          = (fun _ => 3 : String → ℕ) "ocr_error" + 1 ∧
     (3 < (fun _ => 3 : String → ℕ) "ocr_error" + 1 →
       (ErrorH.handle_error { error_counts := fun _ => 3, max_retries := 3 }
          "ocr_error" (Except.ok true)).ret = false ∧
       (ErrorH.handle_error { error_counts := fun _ => 3, max_retries := 3 }
          "ocr_error" (Except.ok true)).invoked_strategy = none) ∧
     ((fun _ => 3 : String → ℕ) "ocr_error" + 1 ≤ 3 →
       (ErrorH.handle_error { error_counts := fun _ => 3, max_retries := 3 }
          "ocr_error" (Except.ok true)).invoked_strategy
         = some (ErrorH.strategy_key "ocr_error"))) :=
  ⟨rfl, handle_error_retry_ceiling
    { error_counts := fun _ => 3, max_retries := 3 } "ocr_error"
    (Except.ok true) rfl⟩

/-- Counterexample to claim C6: with the handler's "camera_error" count
at 2, a successful frame capture — a success of a camera-category
operation — leaves the count at 2, not zero: the ErrorCounter does not
reset on success. -/
theorem error_count_not_reset_on_success_cex :
    ((MainLoop.frameCaptureStep
        { consecutive_frame_failures := 4,
          last_alert_time := fun _ => 0,
          handler := { error_counts := fun k => if k = "camera_error" then 2 else 0,
                       max_retries := 3 } }
        (some 0) true).1.handler.error_counts "camera_error" = 2) ∧
    (2 : ℕ) ≠ 0 :=
  ⟨by simp [MainLoop.frameCaptureStep], by decide⟩

/-- Claim C6 (amended): `reset_error_count` zeroes a category's counter,
but no success path invokes it: the main loop's successful-frame step
resets only its local `consecutive_frame_failures` counter and leaves
the error handler (and the alert table) untouched, so per-category error
counts are cumulative over the process lifetime rather than counts of
consecutive failures. -/
theorem reset_error_count_never_called_on_success
    (s : ErrorH.ErrorHandlerState) (error_type : String)
    (ls : MainLoop.LoopState) (f : Frame) (reinitOk : Bool) :
    (ErrorH.reset_error_count s error_type).error_counts error_type = 0 ∧
    (MainLoop.frameCaptureStep ls (some f) reinitOk).1.handler = ls.handler ∧
    (MainLoop.frameCaptureStep ls (some f) reinitOk).1.consecutive_frame_failures = 0 ∧
    (MainLoop.frameCaptureStep ls (some f) reinitOk).1.last_alert_time
        = ls.last_alert_time ∧
    (MainLoop.frameCaptureStep ls (some f) reinitOk).2 = MainLoop.LoopSignal.next :=
  ⟨by simp [ErrorH.reset_error_count], rfl, rfl, rfl, rfl⟩

/-- Counterexample to claim C3: for the person detection covering 20 %
of a 640×480 frame with cooldown elapsed and both gates idle, the loop
stamps `last_alert_time["person"] = now` even though this tick's
`speak_alert` call returned false — the timestamp is updated on a failed
speak attempt, not only when an alert is actually spoken. -/
theorem alert_stamp_despite_failed_speak_cex :
    (MainLoop.alertStep (fun _ => 0) ⟨"person", 9/10, ⟨0, 0, 256, 240⟩⟩
        640 480 10 ⟨false, false, false⟩).2 = true ∧
    (⟨false, false, false⟩ : MainLoop.AlertEnv).speak_result = false ∧
    (MainLoop.alertStep (fun _ => 0) ⟨"person", 9/10, ⟨0, 0, 256, 240⟩⟩
        640 480 10 ⟨false, false, false⟩).1 "person" = 10 := by
  have hclose :
      Detection.is_close ⟨"person", 9/10, ⟨0, 0, 256, 240⟩⟩ 640 480 = true := by
    simp only [Detection.is_close, Detection.get_area, decide_eq_true_eq]
    norm_num
  refine ⟨?_, rfl, ?_⟩ <;>
  · unfold MainLoop.alertStep
    rw [hclose]
    norm_num [MainLoop.ALERT_COOLDOWN_SECONDS]

/-- Claim C3 (amended): in each per-detection alert step of the main
loop, `speak_alert` is attempted exactly when the detection is close,
the class's cooldown has strictly elapsed
(`now - last_alert_time[class] > cooldown`), and neither the audio gate
nor the OCR pipeline is busy; the class's timestamp becomes `now`
exactly when the attempt is made — regardless of whether the speak call
succeeds — and the table is unchanged otherwise; consequently at most
one speak attempt per class occurs within any cooldown window. -/
theorem alert_cooldown_gate (last : String → Time) (d : Detection)
    (w h : ℚ) (now : Time) (env : MainLoop.AlertEnv) :
    ((MainLoop.alertStep last d w h now env).2 = true ↔
      (d.is_close w h = true ∧
       now - last d.class_name > MainLoop.ALERT_COOLDOWN_SECONDS ∧
       env.audio_busy = false ∧ env.ocr_busy = false)) ∧
    ((MainLoop.alertStep last d w h now env).2 = true →
      (MainLoop.alertStep last d w h now env).1 d.class_name = now) ∧
    ((MainLoop.alertStep last d w h now env).2 = false →
      (MainLoop.alertStep last d w h now env).1 = last) ∧
    (∀ (d' : Detection) (now' : Time) (env' : MainLoop.AlertEnv),
      d'.class_name = d.class_name →
      (MainLoop.alertStep last d w h now env).2 = true →
      ¬ (now' - now > MainLoop.ALERT_COOLDOWN_SECONDS) →
      (MainLoop.alertStep (MainLoop.alertStep last d w h now env).1
          d' w h now' env').2 = false) := by
  refine ⟨?_, ?_, ?_, ?_⟩
  · unfold MainLoop.alertStep
    split_ifs with h1 h2 h3 <;> simp_all
  · unfold MainLoop.alertStep
    split_ifs with h1 h2 h3 <;> simp_all
  · unfold MainLoop.alertStep
    split_ifs with h1 h2 h3 <;> simp_all
  · intro d' now' env' hclass hfired hwin
    unfold MainLoop.alertStep at hfired ⊢
    split_ifs at hfired with h1 h2 h3
    · have htab :
          ((fun c => if c = d.class_name then now else last c) : String → Time)
            d'.class_name = now := by
        simp [hclass]
      split_ifs with g1 g2 g3
      · have g2' : now' - now > MainLoop.ALERT_COOLDOWN_SECONDS := by
          simpa [hclass] using g2
        exact absurd g2' hwin
      · rfl
      · rfl
      · rfl

end VisionMate

namespace VisionMate

/-- Witness for amended C3: the first eligible tick (t = 10) attempts the
alert; a second tick 3 s later (inside the 5 s window) does not. -/
theorem alert_cooldown_gate_witness :
    (MainLoop.alertStep (fun _ => 0) ⟨"person", 9/10, ⟨0, 0, 256, 240⟩⟩
        640 480 10 ⟨false, false, true⟩).2 = true ∧
    (MainLoop.alertStep
        (MainLoop.alertStep (fun _ => 0) ⟨"person", 9/10, ⟨0, 0, 256, 240⟩⟩
          640 480 10 ⟨false, false, true⟩).1
        ⟨"person", 9/10, ⟨0, 0, 256, 240⟩⟩ 640 480 13 ⟨false, false, true⟩).2
      = false :=
  ⟨(alert_cooldown_gate (fun _ => 0) ⟨"person", 9/10, ⟨0, 0, 256, 240⟩⟩
      640 480 10 ⟨false, false, true⟩).1.mpr
    ⟨by simp only [Detection.is_close, Detection.get_area, decide_eq_true_eq];
        norm_num,
     by norm_num [MainLoop.ALERT_COOLDOWN_SECONDS], rfl, rfl⟩,
   (alert_cooldown_gate (fun _ => 0) ⟨"person", 9/10, ⟨0, 0, 256, 240⟩⟩
      640 480 10 ⟨false, false, true⟩).2.2.2
    ⟨"person", 9/10, ⟨0, 0, 256, 240⟩⟩ 13 ⟨false, false, true⟩ rfl
    ((alert_cooldown_gate (fun _ => 0) ⟨"person", 9/10, ⟨0, 0, 256, 240⟩⟩
        640 480 10 ⟨false, false, true⟩).1.mpr
      ⟨by simp only [Detection.is_close, Detection.get_area, decide_eq_true_eq];
          norm_num,
       by norm_num [MainLoop.ALERT_COOLDOWN_SECONDS], rfl, rfl⟩)
    (by norm_num [MainLoop.ALERT_COOLDOWN_SECONDS])⟩

/-- Witness for amended C6: a concrete reset zeroes the counter, and a
concrete successful-frame step resets only the local failure counter. -/
theorem reset_error_count_never_called_on_success_witness :
    (ErrorH.reset_error_count { error_counts := fun _ => 2, max_retries := 3 }
        "tts_error").error_counts "tts_error" = 0 ∧
    (MainLoop.frameCaptureStep
        { consecutive_frame_failures := 7, last_alert_time := fun _ => 0,
          handler := { error_counts := fun _ => 2, max_retries := 3 } }
        (some 1) false).1.consecutive_frame_failures = 0 :=
  ⟨(reset_error_count_never_called_on_success
      { error_counts := fun _ => 2, max_retries := 3 } "tts_error"
      { consecutive_frame_failures := 7, last_alert_time := fun _ => 0,
        handler := { error_counts := fun _ => 2, max_retries := 3 } } 1 false).1,
   (reset_error_count_never_called_on_success
      { error_counts := fun _ => 2, max_retries := 3 } "tts_error"
      { consecutive_frame_failures := 7, last_alert_time := fun _ => 0,
        handler := { error_counts := fun _ => 2, max_retries := 3 } } 1
        false).2.2.1⟩

end VisionMate
